import Mathlib

/-!
Verification of the scanfrog game core (internal/game) against its
specification.  The game-logic fragment of the source — obstacle generation,
the per-tick physics and collision step, the input handler and the state
machine — is embedded shallowly below: Go structs become structures, Go
float64 becomes exact rational arithmetic extended with an explicit NaN
marker (every float the fragment computes from its integer inputs is an exact
small dyadic rational, so the rational model coincides with float64 on them),
and wall-clock times (time.Time) are passed as explicit rational second
counts.  Presentation-only code (rendering, message formatting, hyperlinks)
is outside the embedded fragment.
-/

namespace Scanfrog

/-- A Go float64 value, modeled as an exact rational extended with a NaN
marker.  NaN arises in the embedded fragment only from `math.Mod` with a zero
modulus and propagates through arithmetic, as in IEEE 754. -/
inductive GoFloat where
  | nan : GoFloat
  | val : ℚ → GoFloat
deriving DecidableEq, Inhabited, Repr

/-- Truncation of a rational toward zero: the semantics of the Go conversion
from a finite float64 to int. -/
def goTrunc (q : ℚ) : ℤ := if q < 0 then -⌊-q⌋ else ⌊q⌋

/-- The Go conversion from float64 to int.  For NaN the Go specification
leaves the result implementation-specific; that absence of a defined value is
modeled as `none`. -/
def GoFloat.toInt : GoFloat → Option ℤ
  | nan => none
  | val q => some (goTrunc q)

/-- Go `math.Mod(x, y)`: the exact floating-point remainder, whose sign
follows `x`; `Mod(x, 0)` is NaN. -/
def goMod (x y : ℚ) : GoFloat :=
  if y = 0 then GoFloat.nan else GoFloat.val (x - goTrunc (x / y) * y)

/-- Adding a finite float to a float: NaN propagates. -/
def GoFloat.addQ : GoFloat → ℚ → GoFloat
  | nan, _ => nan
  | val q, r => val (q + r)

/-- The Go comparison `x < 0` on a float64: false when `x` is NaN. -/
def GoFloat.isNegB : GoFloat → Bool
  | nan => false
  | val q => decide (q < 0)

/-- A vulnerability record (`grype.Vulnerability`): identifier, severity
label, CVSS score (0 when absent).  The Package and Description fields are
never read by the game logic and are omitted. -/
structure Vulnerability where
  ID : String
  Severity : String
  CVSS : ℚ
deriving DecidableEq, Inhabited, Repr

/-- A grid position (`game.position`). -/
structure position where
  x : ℤ
  y : ℤ
deriving DecidableEq, Inhabited, Repr

/-- A lane (`game.lane`): fixed row, direction (+1 right, -1 left), base
speed. -/
structure lane where
  y : ℤ
  direction : ℤ
  speed : ℚ
deriving DecidableEq, Inhabited, Repr

/-- An obstacle (`game.obstacle`).  The source keeps an integer grid position
`pos` next to the precise float position `floatX`; `posX`/`posY` stand for
`pos.x`/`pos.y`.  Because `pos.x` is produced by a float64-to-int conversion
whose result on NaN is implementation-specific, it is an `Option ℤ`, `none`
standing for the implementation-specific value obtained from a NaN. -/
structure obstacle where
  posX : Option ℤ
  posY : ℤ
  floatX : GoFloat
  width : ℤ
  speed : ℚ
  cveID : String
  severity : ℚ
  severityLabel : String
deriving DecidableEq, Inhabited, Repr

/-- A decorative item of the zero-vulnerability mode
(`game.decorativeItem`). -/
structure decorativeItem where
  x : ℤ
  y : ℤ
  symbol : String
  floatX : ℚ
  floatY : ℚ
  speed : ℚ
deriving DecidableEq, Inhabited, Repr

/-- The game phase (`game.gameState`). -/
inductive gameState where
  | stateLoading : gameState
  | statePlaying : gameState
  | stateGameOver : gameState
  | stateVictory : gameState
deriving DecidableEq, Inhabited, Repr

/-- The commands the embedded fragment can hand back to the event loop:
nothing, quit, the ticker re-arm, or the one-shot provider load issued only at
initialization (never by a restart). -/
inductive Cmd where
  | none : Cmd
  | quit : Cmd
  | tick : Cmd
  | loadVulns : Cmd
deriving DecidableEq, Inhabited, Repr

/-- The bubbletea model (`game.Model`), restricted to the fields the embedded
game-logic fragment reads or writes.  Wall-clock instants are rational second
counts; the presentation-only fields (loadingMsg, containerImage,
collisionMsg, vulnSource) are outside the embedded fragment. -/
structure Model where
  state : gameState
  frog : position
  obstacles : List obstacle
  lanes : List lane
  gameStartTime : ℚ
  totalVulns : ℕ
  collisionCVE : String
  collisionObs : Option obstacle
  width : ℤ
  height : ℤ
  lastUpdate : ℚ
  hasMoved : Bool
  firstMoveTime : ℚ
  isZeroVulnGame : Bool
  decorativeItems : List decorativeItem
  loadedVulns : List Vulnerability
deriving DecidableEq, Inhabited, Repr

/-- gameAreaHeight (model.go): the fixed height of the playable game area. -/
def gameAreaHeight : ℤ := 20

/-- minTerminalHeight (model.go): gameAreaHeight plus two header rows. -/
def minTerminalHeight : ℤ := 22

/-- The obstacle class (`game.obstacleType`). -/
inductive obstacleType where
  | obstacleTypeCar : obstacleType
  | obstacleTypeTruck : obstacleType
  | obstacleTypeBoss : obstacleType
deriving DecidableEq, Inhabited, Repr

/-- getObstacleProperties: width, speed multiplier and class of the obstacle
for a vulnerability.  A positive CVSS score takes priority; otherwise the
severity label decides; the defaults (1, 1.0, car) cover scores in (0, 4) and
unknown labels. -/
def getObstacleProperties (vuln : Vulnerability) : ℤ × ℚ × obstacleType :=
  if vuln.CVSS > 0 then
    if vuln.CVSS ≥ 9 then (2, 1.5, obstacleType.obstacleTypeBoss)
    else if vuln.CVSS ≥ 7 then (2, 1.2, obstacleType.obstacleTypeTruck)
    else if vuln.CVSS ≥ 4 then (1, 1.3, obstacleType.obstacleTypeCar)
    else (1, 1.0, obstacleType.obstacleTypeCar)
  else
    match vuln.Severity with
    | "Critical" => (2, 1.5, obstacleType.obstacleTypeBoss)
    | "High" => (2, 1.2, obstacleType.obstacleTypeTruck)
    | "Medium" => (1, 1.3, obstacleType.obstacleTypeCar)
    | "Low" => (1, 1.0, obstacleType.obstacleTypeCar)
    | "Negligible" => (1, 0.8, obstacleType.obstacleTypeCar)
    | _ => (1, 1.0, obstacleType.obstacleTypeCar)

/-- checkCollision: true exactly when the frog is on the obstacle row and its
x position lies in the span [pos.x, pos.x + width).  For the
implementation-specific integer position obtained from a NaN (`none`) the
result is false, matching the span test on the out-of-range value produced on
common platforms. -/
def checkCollision (frog : position) (obs : obstacle) : Bool :=
  match obs.posX with
  | none => false
  | some ox =>
    decide (frog.y = obs.posY) && (decide (ox ≤ frog.x) && decide (frog.x < ox + obs.width))

/-- The body of the generateObstacles loop at index `i` for vulnerability
`vuln`, given the lane list, the viewport width and the total vulnerability
count `n` (`len(vulns)` in the source, which fixes the spacing and the loop
length).  All Go int divisions and moduli here have nonnegative operands, so
`%` on ℤ (Euclidean) agrees with the Go truncating operators; `Int.tdiv` is
used where the dividend could in principle be negative. -/
def mkObstacleFor (lanes : List lane) (width : ℤ) (n : ℕ) (i : ℕ)
    (vuln : Vulnerability) : obstacle :=
  let numLanes := lanes.length
  let laneIdx := i % numLanes
  let theLane := lanes.getD laneIdx default
  let props := getObstacleProperties vuln
  let obstacleIndexInLane := i / numLanes
  let spacing : ℚ := if n > 200 then 8 else if n > 100 then 12 else 20
  let baseX : ℚ := (obstacleIndexInLane : ℚ) * spacing
  let laneOffset : ℚ := (laneIdx : ℚ) * 2
  let variation : ℚ := (((i % 7 : ℕ) : ℤ) - 3 : ℤ) * 0.5
  let x : ℚ := baseX + laneOffset + variation
  let loopLength : ℚ := ((n / numLanes : ℕ) : ℚ) * spacing
  let xm := goMod x loopLength
  let xw := if xm.isNegB then xm.addQ loopLength else xm
  let startX : Option ℤ :=
    match xw.toInt with
    | none => none
    | some xi =>
      if theLane.direction > 0 then some (xi - Int.tdiv (goTrunc loopLength) 2)
      else some (xi + width - Int.tdiv (goTrunc loopLength) 2)
  { posX := startX
    posY := theLane.y
    floatX := match startX with
      | none => GoFloat.nan
      | some s => GoFloat.val (s : ℚ)
    width := props.1
    speed := theLane.speed * props.2.1 * (theLane.direction : ℚ)
    cveID := vuln.ID
    severity := vuln.CVSS
    severityLabel := vuln.Severity }

/-- The generateObstacles loop: one obstacle per vulnerability at increasing
index. -/
def generateObstaclesAux (lanes : List lane) (width : ℤ) (n : ℕ) :
    ℕ → List Vulnerability → List obstacle
  | _, [] => []
  | i, vuln :: rest =>
    mkObstacleFor lanes width n i vuln :: generateObstaclesAux lanes width n (i + 1) rest

/-- generateObstacles: clears the obstacle list and builds exactly one
obstacle per vulnerability, round-robin over the lanes; with zero lanes it
produces no obstacles. -/
def generateObstacles (lanes : List lane) (width : ℤ)
    (vulns : List Vulnerability) : List obstacle :=
  if lanes.length = 0 then []
  else generateObstaclesAux lanes width vulns.length 0 vulns

/-- The fixed lane row list of startGame. -/
def lanePositions : List ℤ := [18, 16, 14, 12, 10, 8, 6, 4]

/-- The lane-building loop of startGame: alternating direction and an
index-dependent base speed, keeping only rows below gameAreaHeight.  The
index keeps advancing over skipped rows, as in the Go range loop. -/
def mkLanesAux : ℕ → List ℤ → List lane
  | _, [] => []
  | i, y :: rest =>
    if y < gameAreaHeight then
      { y := y, direction := 1 - 2 * ((i % 2 : ℕ) : ℤ),
        speed := 0.5 + ((i % 3 : ℕ) : ℚ) * 0.3 } :: mkLanesAux (i + 1) rest
    else mkLanesAux (i + 1) rest

/-- The lanes startGame builds (the Go loop over lanePositions from index
0). -/
def startLanes : List lane := mkLanesAux 0 lanePositions

/-- The fixed symbol palette of the decorative items. -/
def decorSymbols : List String := ["💚", "✨", "💚", "⭐", "💚", "✨"]

/-- The body of the decorative-item loop at index `i`: an evenly spaced
horizontal position with a small jitter, a row cycling through 1..18, moved
off the frog spawn cell when it would overlap it.  The Go `%` operands here
are nonnegative, so `%` on ℤ agrees with the Go operator. -/
def mkDecorItem (width : ℤ) (frog : position) (i : ℕ) : decorativeItem :=
  let x : ℤ := Int.tdiv ((i : ℤ) * width) 12 + ((i % 3 : ℕ) : ℤ) - 1
  let y0 : ℤ := 1 + (i : ℤ) % (gameAreaHeight - 2)
  let y : ℤ :=
    if y0 = frog.y ∧ frog.x - 2 ≤ x ∧ x ≤ frog.x + 2 then
      let y1 := (y0 + 3) % (gameAreaHeight - 1)
      if y1 = 0 then 1 else y1
    else y0
  { x := x, y := y
    symbol := decorSymbols.getD (i % decorSymbols.length) default
    floatX := (x : ℚ), floatY := (y : ℚ)
    speed := 0.3 + ((i % 3 : ℕ) : ℚ) * 0.2 }

/-- The loop of initializeDecorativeItems, counting `fuel` items up from index
`i` (the source runs i = 0 to 11). -/
def initDecorAux (width : ℤ) (frog : position) : ℕ → ℕ → List decorativeItem
  | _, 0 => []
  | i, Nat.succ fuel => mkDecorItem width frog i :: initDecorAux width frog (i + 1) fuel

/-- initializeDecorativeItems: twelve decorative items distributed across the
screen, avoiding the frog starting position. -/
def initializeDecorativeItems (width : ℤ) (frog : position) : List decorativeItem :=
  initDecorAux width frog 0 12

/-- startGame: enters Playing, records the start instant and the total count,
places the frog at the bottom center, builds the fixed lanes, generates the
obstacles, switches to decorative mode when the list is empty, and stamps
lastUpdate.  `now` stands for time.Now(). -/
def startGame (m : Model) (vulns : List Vulnerability) (now : ℚ) : Model :=
  let frog : position := { x := Int.tdiv m.width 2, y := gameAreaHeight - 1 }
  let lanes := startLanes
  let obstacles := generateObstacles lanes m.width vulns
  let m1 : Model :=
    { m with state := gameState.statePlaying, gameStartTime := now,
             totalVulns := vulns.length, frog := frog, lanes := lanes,
             obstacles := obstacles }
  let m2 : Model :=
    if vulns.length = 0 then
      { m1 with isZeroVulnGame := true,
                decorativeItems := initializeDecorativeItems m1.width m1.frog }
    else m1
  { m2 with lastUpdate := now }

/-- restartGame: resets the per-round state and starts a new round from the
cached vulnerability list; the returned command re-arms the ticker and never
re-fetches from the provider. -/
def restartGame (m : Model) (now : ℚ) : Model × Cmd :=
  let m1 : Model :=
    { m with state := gameState.statePlaying, hasMoved := false,
             collisionCVE := "", collisionObs := none, decorativeItems := [],
             isZeroVulnGame := false, lastUpdate := now }
  (startGame m1 m.loadedVulns now, Cmd.tick)

/-- The first-move bookkeeping of the movement cases of handleKeyPress. -/
def markFirstMove (m : Model) (now : ℚ) : Model :=
  if m.hasMoved then m else { m with hasMoved := true, firstMoveTime := now }

/-- The movement switch of handleKeyPress while Playing. -/
def moveFrog (m : Model) (key : String) (now : ℚ) : Model :=
  if key = "up" ∨ key = "w" then
    if m.frog.y > 0 then
      markFirstMove { m with frog := { m.frog with y := m.frog.y - 1 } } now
    else m
  else if key = "down" ∨ key = "s" then
    if m.frog.y < gameAreaHeight - 1 then
      markFirstMove { m with frog := { m.frog with y := m.frog.y + 1 } } now
    else m
  else if key = "left" ∨ key = "a" then
    if m.frog.x > 0 then
      markFirstMove { m with frog := { m.frog with x := m.frog.x - 1 } } now
    else m
  else if key = "right" ∨ key = "d" then
    if m.frog.x < m.width - 1 then
      markFirstMove { m with frog := { m.frog with x := m.frog.x + 1 } } now
    else m
  else m

/-- handleKeyPress: outside Playing the quit keys quit and enter or space
restarts from the two terminal states; while Playing the quit keys quit,
movement keys move the frog inside the fixed bounds, and reaching row 0
enters Victory. -/
def handleKeyPress (m : Model) (key : String) (now : ℚ) : Model × Cmd :=
  if m.state ≠ gameState.statePlaying then
    if key = "q" ∨ key = "esc" ∨ key = "ctrl+c" then (m, Cmd.quit)
    else if key = "enter" ∨ key = " " then
      if m.state = gameState.stateGameOver ∨ m.state = gameState.stateVictory then
        restartGame m now
      else (m, Cmd.none)
    else (m, Cmd.none)
  else if key = "q" ∨ key = "esc" ∨ key = "ctrl+c" then (m, Cmd.quit)
  else
    let m1 := moveFrog m key now
    if m1.frog.y = 0 then ({ m1 with state := gameState.stateVictory }, Cmd.none)
    else (m1, Cmd.none)

/-- The obstacle-update loop body of updateGame: delta-time movement then the
screen wrap on the integer position.  When the integer position is the
implementation-specific image of a NaN (`none`), the two Go integer
comparisons of the wrap are left unspecified and no wrap is modeled. -/
def stepObstacle (width : ℤ) (delta : ℚ) (o : obstacle) : obstacle :=
  let movement := o.speed * delta * 30
  let fx := o.floatX.addQ movement
  match fx.toInt with
  | none => { o with floatX := fx, posX := none }
  | some p =>
    if p < -o.width - 5 then
      { o with floatX := GoFloat.val ((width + 5 : ℤ) : ℚ), posX := some (width + 5) }
    else if p > width + 5 then
      { o with floatX := GoFloat.val ((-o.width - 5 : ℤ) : ℚ), posX := some (-o.width - 5) }
    else { o with floatX := fx, posX := some p }

/-- The decorative-item update loop body of updateGame; Go math.Sin is the
abstract parameter `sinFn` and time.UnixMilli is the truncated millisecond
count of `now`. -/
def stepDecorativeItem (width : ℤ) (delta now : ℚ) (sinFn : ℚ → ℚ) (i : ℕ)
    (d : decorativeItem) : decorativeItem :=
  let fx := d.floatX + d.speed * delta * 10
  let bobAmount := sinFn (((goTrunc (now * 1000) : ℤ) : ℚ) / 1000 + (i : ℚ)) * 0.5
  let fy := d.floatY + bobAmount * delta
  let xi := goTrunc fx
  let yi := goTrunc fy
  if xi > width + 2 then { d with floatX := -2, x := -2, floatY := fy, y := yi }
  else { d with floatX := fx, x := xi, floatY := fy, y := yi }

/-- The decorative-item loop of updateGame over the indexed list. -/
def stepDecorativeList (width : ℤ) (delta now : ℚ) (sinFn : ℚ → ℚ) :
    ℕ → List decorativeItem → List decorativeItem
  | _, [] => []
  | i, d :: rest =>
    stepDecorativeItem width delta now sinFn i d ::
      stepDecorativeList width delta now sinFn (i + 1) rest

/-- The collision loop of updateGame: the first colliding obstacle in list
order, if any. -/
def findCollision (frog : position) : List obstacle → Option obstacle
  | [] => none
  | o :: rest => if checkCollision frog o then some o else findCollision frog rest

/-- updateGame: one tick.  Computes the wall-clock delta, advances and wraps
every obstacle, advances the decorative items in zero-vulnerability mode, and
checks collisions in list order, entering GameOver on the first hit (the
collision message formatting is presentation only and outside the embedded
fragment). -/
def updateGame (m : Model) (now : ℚ) (sinFn : ℚ → ℚ) : Model :=
  let delta := now - m.lastUpdate
  let m1 : Model :=
    { m with lastUpdate := now,
             obstacles := m.obstacles.map (stepObstacle m.width delta) }
  let m2 : Model :=
    if m1.isZeroVulnGame then
      { m1 with decorativeItems :=
          stepDecorativeList m1.width delta now sinFn 0 m1.decorativeItems }
    else m1
  match findCollision m2.frog m2.obstacles with
  | some obs =>
    { m2 with state := gameState.stateGameOver, collisionCVE := obs.cveID,
              collisionObs := some obs }
  | none => m2

/-- NewModel: the initial model, state Loading with the default 80 by 24
viewport; the remaining fields take the Go zero values.  `now` stands for
time.Now(). -/
def NewModel (now : ℚ) : Model :=
  { state := gameState.stateLoading, frog := { x := 0, y := 0 }, obstacles := [],
    lanes := [], gameStartTime := 0, totalVulns := 0, collisionCVE := "",
    collisionObs := none, width := 80, height := 24, lastUpdate := now,
    hasMoved := false, firstMoveTime := 0, isZeroVulnGame := false,
    decorativeItems := [], loadedVulns := [] }

/-- The WindowSizeMsg branch of Update: the dimensions are taken only when
both are positive. -/
def setWindowSize (m : Model) (w h : ℤ) : Model :=
  if w > 0 ∧ h > 0 then { m with width := w, height := h } else m

/-- The vulnerabilitiesLoadedMsg branch of Update: cache the list, start the
game and re-arm the ticker. -/
def vulnerabilitiesLoaded (m : Model) (vulns : List Vulnerability) (now : ℚ) :
    Model × Cmd :=
  (startGame { m with loadedVulns := vulns } vulns now, Cmd.tick)

/-- The wrap-free test of a single physics step: the post-move integer
position is defined and stays inside the wrap bounds, so neither wrap branch
fires. -/
def noWrapB (width : ℤ) (delta : ℚ) (o : obstacle) : Bool :=
  match (o.floatX.addQ (o.speed * delta * 30)).toInt with
  | none => false
  | some p => decide (-o.width - 5 ≤ p) && decide (p ≤ width + 5)

/-- The iterated wrap-free test along a sequence of tick deltas. -/
def stepsNoWrapB (width : ℤ) : obstacle → List ℚ → Bool
  | _, [] => true
  | o, d :: ds => noWrapB width d o && stepsNoWrapB width (stepObstacle width d o) ds

/-- A sample vulnerability record used by the concrete witnesses. -/
def vulnSample : Vulnerability := { ID := "CVE-2024-1234", Severity := "High", CVSS := 7.5 }

/-- A sample obstacle used by the concrete witnesses. -/
def obsSample : obstacle :=
  { posX := some 0, posY := 4, floatX := GoFloat.val 0, width := 1, speed := 1,
    cveID := "CVE-2024-1", severity := 5, severityLabel := "Medium" }

/-- A sample one-obstacle Playing model used by the concrete witnesses. -/
def modelTick : Model :=
  { NewModel 0 with state := gameState.statePlaying, obstacles := [obsSample] }

/-- The concrete Playing state of the C10 counterexample: a fresh model
resized to a 10-row viewport (accepted, both dimensions positive) and started
with an empty vulnerability list. -/
def shortViewportModel : Model := startGame (setWindowSize (NewModel 0) 80 10) [] 0

/-- A sample Playing model used by the concrete witnesses. -/
def playingSample : Model := startGame (NewModel 0) [vulnSample] 0

/-! ## Helper lemmas -/

/-- The generateObstacles loop produces one obstacle per vulnerability. -/
theorem generateObstaclesAux_length (lanes : List lane) (w : ℤ) (n : ℕ)
    (vulns : List Vulnerability) :
    ∀ i, (generateObstaclesAux lanes w n i vulns).length = vulns.length := by
  induction vulns with
  | nil => intro i; rfl
  | cons v rest ih => intro i; simp [generateObstaclesAux, ih]

/-- The k-th obstacle of the generateObstacles loop started at index i is the
loop body at index i + k. -/
theorem generateObstaclesAux_getD (lanes : List lane) (w : ℤ) (n : ℕ)
    (vulns : List Vulnerability) :
    ∀ i k, k < vulns.length →
      (generateObstaclesAux lanes w n i vulns).getD k default
        = mkObstacleFor lanes w n (i + k) (vulns.getD k default) := by
  induction vulns with
  | nil => intro i k h; simp at h
  | cons v rest ih =>
    intro i k h
    cases k with
    | zero => simp [generateObstaclesAux]
    | succ k =>
      have hk : k < rest.length := by simpa using h
      have hrw : i + 1 + k = i + (k + 1) := by omega
      simp only [generateObstaclesAux, List.getD_cons_succ]
      rw [ih (i + 1) k hk, hrw]

/-- The fixed lane list is not empty. -/
theorem startLanes_ne_nil : startLanes ≠ [] := by
  simp [startLanes, mkLanesAux, lanePositions, gameAreaHeight]

/-! ## Claims -/

/-- Claim C1 (code-bug evidence): on the two-record vulnerability list of the
repository interactive test — fewer records than the eight lanes —
generateObstacles computes loopLength = float64(len(vulns)/numLanes)*spacing
= float64(2/8)*20 = 0, and math.Mod(x, 0) is NaN, so every generated obstacle
float position is NaN-derived.  This contradicts the claim (and the intent
recorded in the spec error-handling section and in the NaN assertion of
TestDeltaTimePhysics) that the modulo loop-length wrap is well-defined for
every nonzero vulnerability count, in particular counts smaller than the
number of lanes. -/
theorem generateObstacles_nan_on_fewer_vulns_than_lanes :
    (generateObstacles startLanes 80
        [{ ID := "CVE-2021-1", Severity := "Low", CVSS := 0 },
         { ID := "CVE-2021-2", Severity := "Medium", CVSS := 0 }]).map obstacle.floatX
      = [GoFloat.nan, GoFloat.nan] := by
  simp [generateObstacles, generateObstaclesAux, mkObstacleFor, startLanes, mkLanesAux,
        lanePositions, gameAreaHeight, goMod, GoFloat.isNegB, GoFloat.addQ, GoFloat.toInt]

/-- Claim C2: for a non-empty vulnerability list and a non-empty lane list,
generateObstacles yields exactly one obstacle per record, in order: the i-th
obstacle carries the i-th record id, score and label and sits on the row of
lane i mod lane count, and the count is independent of the viewport width. -/
theorem generateObstacles_cardinality (lanes : List lane) (w w2 : ℤ)
    (vulns : List Vulnerability) (hl : lanes ≠ []) (hv : vulns ≠ []) :
    (generateObstacles lanes w vulns).length = vulns.length ∧
    (∀ i, i < vulns.length →
      ((generateObstacles lanes w vulns).getD i default).cveID
          = (vulns.getD i default).ID ∧
      ((generateObstacles lanes w vulns).getD i default).severity
          = (vulns.getD i default).CVSS ∧
      ((generateObstacles lanes w vulns).getD i default).severityLabel
          = (vulns.getD i default).Severity ∧
      ((generateObstacles lanes w vulns).getD i default).posY
          = (lanes.getD (i % lanes.length) default).y) ∧
    (generateObstacles lanes w2 vulns).length = (generateObstacles lanes w vulns).length := by
  have hl0 : ¬ lanes.length = 0 := by simpa using hl
  refine ⟨?_, ?_, ?_⟩
  · simp only [generateObstacles, if_neg hl0]
    exact generateObstaclesAux_length lanes w vulns.length vulns 0
  · intro i hi
    simp only [generateObstacles, if_neg hl0]
    rw [generateObstaclesAux_getD lanes w vulns.length vulns 0 i hi]
    simp [mkObstacleFor]
  · simp only [generateObstacles, if_neg hl0]
    rw [generateObstaclesAux_length lanes w2 vulns.length vulns 0,
        generateObstaclesAux_length lanes w vulns.length vulns 0]

/-- Witness for claim C2 at a concrete input. -/
theorem generateObstacles_cardinality_witness :
    (generateObstacles startLanes 80 [vulnSample]).length = 1 :=
  (generateObstacles_cardinality startLanes 80 120 [vulnSample]
      startLanes_ne_nil (by simp)).1

/-- Claim C3: checkCollision is true exactly on the obstacle row with the
frog x inside [pos.x, pos.x + width): the left edge collides (for a positive
width), the exclusive right boundary pos.x + width does not, and any other
row never collides. -/
theorem checkCollision_iff (frog : position) (obs : obstacle) (ox : ℤ)
    (h : obs.posX = some ox) :
    (checkCollision frog obs = true ↔
      frog.y = obs.posY ∧ ox ≤ frog.x ∧ frog.x < ox + obs.width) ∧
    (frog.y = obs.posY → 0 < obs.width → frog.x = ox →
      checkCollision frog obs = true) ∧
    (frog.x = ox + obs.width → checkCollision frog obs = false) ∧
    (frog.y ≠ obs.posY → checkCollision frog obs = false) := by
  simp only [checkCollision, h]
  refine ⟨by simp, ?_, ?_, ?_⟩
  · intro h1 h2 h3
    simp [h1, h3, h2]
  · intro h3
    simp [h3]
  · intro h1
    simp [h1]

/-- Witness for claim C3 at a concrete input. -/
theorem checkCollision_iff_witness :
    checkCollision { x := 10, y := 5 }
      { posX := some 9, posY := 5, floatX := GoFloat.val 9, width := 2,
        speed := 1, cveID := "CVE-2024-1", severity := 0, severityLabel := "Low" }
      = true :=
  ((checkCollision_iff { x := 10, y := 5 } _ 9 rfl).1).mpr
    ⟨rfl, by decide, by decide⟩

/-- The obstacle field startGame builds depends only on the viewport width
and the vulnerability list. -/
theorem startGame_obstacles (m : Model) (vulns : List Vulnerability) (t : ℚ) :
    (startGame m vulns t).obstacles = generateObstacles startLanes m.width vulns := by
  unfold startGame
  split <;> rfl

/-- startGame always enters the Playing state. -/
theorem startGame_state (m : Model) (vulns : List Vulnerability) (t : ℚ) :
    (startGame m vulns t).state = gameState.statePlaying := by
  unfold startGame
  split <;> rfl

/-- startGame never touches the cached vulnerability list. -/
theorem startGame_loadedVulns (m : Model) (vulns : List Vulnerability) (t : ℚ) :
    (startGame m vulns t).loadedVulns = m.loadedVulns := by
  unfold startGame
  split <;> rfl

/-- startGame keeps the viewport width. -/
theorem startGame_width (m : Model) (vulns : List Vulnerability) (t : ℚ) :
    (startGame m vulns t).width = m.width := by
  unfold startGame
  split <;> rfl

/-- startGame places the frog at the bottom center of the fixed game area. -/
theorem startGame_frog (m : Model) (vulns : List Vulnerability) (t : ℚ) :
    (startGame m vulns t).frog = { x := Int.tdiv m.width 2, y := gameAreaHeight - 1 } := by
  unfold startGame
  split <;> rfl

/-- Claim C4: the generated obstacle field is a function of the vulnerability
list and the viewport width alone — two startGame runs from any two states of
equal width agree element-wise, and a restart from the cached list matches a
fresh load at the same width. -/
theorem startGame_obstacles_deterministic (m1 m2 : Model) (vulns : List Vulnerability)
    (t1 t2 : ℚ) (hw : m1.width = m2.width) :
    (startGame m1 vulns t1).obstacles = (startGame m2 vulns t2).obstacles ∧
    (∀ (mc : Model) (t t3 : ℚ), mc.width = m1.width → mc.loadedVulns = vulns →
      ((restartGame mc t).1).obstacles = (startGame m1 vulns t3).obstacles) := by
  constructor
  · rw [startGame_obstacles, startGame_obstacles, hw]
  · intro mc t t3 hcw hcv
    have h2 : ((restartGame mc t).1).obstacles
        = generateObstacles startLanes mc.width mc.loadedVulns :=
      startGame_obstacles _ _ _
    rw [h2, hcv, hcw, startGame_obstacles]

/-- Witness for claim C4 at concrete inputs. -/
theorem startGame_obstacles_deterministic_witness :
    (startGame (NewModel 0) [vulnSample] 1).obstacles
      = (startGame (NewModel 5) [vulnSample] 2).obstacles :=
  (startGame_obstacles_deterministic (NewModel 0) (NewModel 5) [vulnSample] 1 2 rfl).1

/-- Claim C6: the severity mapping of getObstacleProperties — a positive CVSS
score takes priority with thresholds 9, 7 and 4, scores in (0, 4) give the
defaults regardless of label, and a zero score falls back to the severity
label. -/
theorem getObstacleProperties_severity_mapping (v : Vulnerability) :
    (9 ≤ v.CVSS → getObstacleProperties v = (2, 1.5, obstacleType.obstacleTypeBoss)) ∧
    (7 ≤ v.CVSS → v.CVSS < 9 →
      getObstacleProperties v = (2, 1.2, obstacleType.obstacleTypeTruck)) ∧
    (4 ≤ v.CVSS → v.CVSS < 7 →
      getObstacleProperties v = (1, 1.3, obstacleType.obstacleTypeCar)) ∧
    (0 < v.CVSS → v.CVSS < 4 →
      getObstacleProperties v = (1, 1.0, obstacleType.obstacleTypeCar)) ∧
    (v.CVSS = 0 → v.Severity = "Critical" →
      getObstacleProperties v = (2, 1.5, obstacleType.obstacleTypeBoss)) ∧
    (v.CVSS = 0 → v.Severity = "High" →
      getObstacleProperties v = (2, 1.2, obstacleType.obstacleTypeTruck)) ∧
    (v.CVSS = 0 → v.Severity = "Medium" →
      getObstacleProperties v = (1, 1.3, obstacleType.obstacleTypeCar)) ∧
    (v.CVSS = 0 → v.Severity = "Low" →
      getObstacleProperties v = (1, 1.0, obstacleType.obstacleTypeCar)) ∧
    (v.CVSS = 0 → v.Severity = "Negligible" →
      getObstacleProperties v = (1, 0.8, obstacleType.obstacleTypeCar)) := by
  obtain ⟨vid, sev, cvss⟩ := v
  refine ⟨?_, ?_, ?_, ?_, ?_, ?_, ?_, ?_, ?_⟩
  · intro h
    unfold getObstacleProperties
    split_ifs <;> first | rfl | (exfalso; dsimp only at *; linarith)
  · intro h1 h2
    unfold getObstacleProperties
    split_ifs <;> first | rfl | (exfalso; dsimp only at *; linarith)
  · intro h1 h2
    unfold getObstacleProperties
    split_ifs <;> first | rfl | (exfalso; dsimp only at *; linarith)
  · intro h1 h2
    unfold getObstacleProperties
    split_ifs <;> first | rfl | (exfalso; dsimp only at *; linarith)
  · intro h hs
    subst h; subst hs
    simp [getObstacleProperties]
  · intro h hs
    subst h; subst hs
    simp [getObstacleProperties]
  · intro h hs
    subst h; subst hs
    simp [getObstacleProperties]
  · intro h hs
    subst h; subst hs
    simp [getObstacleProperties]
  · intro h hs
    subst h; subst hs
    simp [getObstacleProperties]

/-- Witness for claim C6 at a concrete input (label fallback at score 0). -/
theorem getObstacleProperties_severity_mapping_witness :
    getObstacleProperties { ID := "GHSA-aaaa-bbbb-cccc", Severity := "Critical", CVSS := 0 }
      = (2, 1.5, obstacleType.obstacleTypeBoss) :=
  (getObstacleProperties_severity_mapping
      { ID := "GHSA-aaaa-bbbb-cccc", Severity := "Critical", CVSS := 0 }).2.2.2.2.1 rfl rfl

/-- Claim C7: from either terminal state an enter or space key restarts: the
state re-enters Playing, the emitted command is the ticker re-arm (not the
provider load), the cached vulnerability list is untouched, and the
regenerated obstacle field equals the fresh-load field at the same width. -/
theorem handleKeyPress_restart_uses_cache (m mf : Model) (key : String) (now tf : ℚ)
    (hs : m.state = gameState.stateGameOver ∨ m.state = gameState.stateVictory)
    (hk : key = "enter" ∨ key = " ")
    (hw : mf.width = m.width) :
    (handleKeyPress m key now).1.state = gameState.statePlaying ∧
    (handleKeyPress m key now).2 = Cmd.tick ∧
    (handleKeyPress m key now).1.loadedVulns = m.loadedVulns ∧
    (handleKeyPress m key now).1.obstacles
      = ((vulnerabilitiesLoaded mf m.loadedVulns tf).1).obstacles := by
  have hnp : m.state ≠ gameState.statePlaying := by
    rcases hs with h | h <;> rw [h] <;> simp
  have hkey : handleKeyPress m key now = restartGame m now := by
    unfold handleKeyPress
    rw [if_pos hnp]
    rcases hk with h | h <;> subst h
    · rw [if_neg (by simp), if_pos (by simp), if_pos hs]
    · rw [if_neg (by simp), if_pos (by simp), if_pos hs]
  rw [hkey]
  refine ⟨startGame_state _ _ _, rfl, startGame_loadedVulns _ _ _, ?_⟩
  have h1 : ((restartGame m now).1).obstacles
      = generateObstacles startLanes m.width m.loadedVulns :=
    startGame_obstacles _ _ _
  have h2 : ((vulnerabilitiesLoaded mf m.loadedVulns tf).1).obstacles
      = generateObstacles startLanes mf.width m.loadedVulns :=
    startGame_obstacles _ _ _
  rw [h1, h2, hw]

/-- Witness for claim C7 at a concrete input. -/
theorem handleKeyPress_restart_uses_cache_witness :
    (handleKeyPress
        { NewModel 0 with state := gameState.stateGameOver, loadedVulns := [vulnSample] }
        "enter" 3).2 = Cmd.tick :=
  (handleKeyPress_restart_uses_cache
      { NewModel 0 with state := gameState.stateGameOver, loadedVulns := [vulnSample] }
      (NewModel 0) "enter" 3 4 (Or.inl rfl) (Or.inl rfl) rfl).2.1

/-- A wrap-free physics step adds exactly speed times delta times 30 to the
float position and changes nothing else but the integer projection. -/
theorem stepObstacle_no_wrap (width : ℤ) (delta : ℚ) (o : obstacle) (q : ℚ)
    (hq : o.floatX = GoFloat.val q) (h : noWrapB width delta o = true) :
    (stepObstacle width delta o).floatX = GoFloat.val (q + o.speed * delta * 30) ∧
    (stepObstacle width delta o).posX = some (goTrunc (q + o.speed * delta * 30)) ∧
    (stepObstacle width delta o).speed = o.speed ∧
    (stepObstacle width delta o).width = o.width := by
  unfold noWrapB at h
  rw [hq] at h
  simp only [GoFloat.addQ, GoFloat.toInt] at h
  rw [Bool.and_eq_true, decide_eq_true_eq, decide_eq_true_eq] at h
  unfold stepObstacle
  rw [hq]
  simp only [GoFloat.addQ, GoFloat.toInt]
  rw [if_neg (by omega), if_neg (by omega)]
  exact ⟨rfl, rfl, rfl, rfl⟩

/-- Folding wrap-free steps over a delta list adds speed times the delta sum
times 30 to the float position and preserves the velocity. -/
theorem foldl_step_no_wrap (width : ℤ) :
    ∀ (ds : List ℚ) (o : obstacle) (q : ℚ), o.floatX = GoFloat.val q →
      stepsNoWrapB width o ds = true →
      ((ds.foldl (fun acc d => stepObstacle width d acc) o).floatX
          = GoFloat.val (q + o.speed * ds.sum * 30)) ∧
      (ds.foldl (fun acc d => stepObstacle width d acc) o).speed = o.speed := by
  intro ds
  induction ds with
  | nil =>
    intro o q hq _
    constructor
    · simp only [List.foldl_nil, List.sum_nil, mul_zero, zero_mul, add_zero]
      exact hq
    · rfl
  | cons d rest ih =>
    intro o q hq hnw
    rw [stepsNoWrapB, Bool.and_eq_true] at hnw
    obtain ⟨h1, h2⟩ := hnw
    have hstep := stepObstacle_no_wrap width d o q hq h1
    have ihres := ih (stepObstacle width d o) (q + o.speed * d * 30) hstep.1 h2
    simp only [List.foldl_cons, List.sum_cons]
    constructor
    · rw [ihres.1, hstep.2.2.1]
      have : q + o.speed * d * 30 + o.speed * rest.sum * 30
          = q + o.speed * (d + rest.sum) * 30 := by ring
      rw [this]
    · rw [ihres.2, hstep.2.2.1]

/-- Claim C5: wrap-free obstacle motion is additive in the elapsed time — the
fold of several tick steps whose deltas sum to T yields the same float
position as one step of delta T, namely the start plus velocity times T
times 30. -/
theorem obstacle_motion_frame_rate_independent (width : ℤ) (o : obstacle) (q : ℚ)
    (ds : List ℚ) (hq : o.floatX = GoFloat.val q) (hpos : ∀ d ∈ ds, 0 < d)
    (hnw : stepsNoWrapB width o ds = true)
    (hnw1 : noWrapB width ds.sum o = true) :
    ((ds.foldl (fun acc d => stepObstacle width d acc) o).floatX
        = GoFloat.val (q + o.speed * ds.sum * 30)) ∧
    (stepObstacle width ds.sum o).floatX = GoFloat.val (q + o.speed * ds.sum * 30) := by
  exact ⟨(foldl_step_no_wrap width ds o q hq hnw).1,
         (stepObstacle_no_wrap width ds.sum o q hq hnw1).1⟩

/-- Witness for claim C5 at a concrete input: two sixtieth-second ticks. -/
theorem obstacle_motion_frame_rate_independent_witness :
    ([(1 : ℚ)/60, 1/60].foldl (fun acc d => stepObstacle 80 d acc) obsSample).floatX
      = GoFloat.val (0 + obsSample.speed * ([(1 : ℚ)/60, 1/60].sum) * 30) :=
  (obstacle_motion_frame_rate_independent 80 obsSample 0 [1/60, 1/60] rfl
      (by intro d hd
          rcases List.mem_cons.mp hd with h | h
          · rw [h]; norm_num
          · rcases List.mem_cons.mp h with h2 | h2
            · rw [h2]; norm_num
            · simp at h2)
      (by norm_num [stepsNoWrapB, noWrapB, stepObstacle, GoFloat.addQ, GoFloat.toInt,
                    goTrunc, obsSample])
      (by norm_num [noWrapB, GoFloat.addQ, GoFloat.toInt, goTrunc, obsSample])).1

/-- The decorative-item loop produces exactly `fuel` items. -/
theorem initDecorAux_length (w : ℤ) (f : position) :
    ∀ n i, (initDecorAux w f i n).length = n := by
  intro n
  induction n with
  | zero => intro i; rfl
  | succ k ih => intro i; simp [initDecorAux, ih]

/-- Every item produced by the decorative-item loop is a loop-body value. -/
theorem initDecorAux_mem (w : ℤ) (f : position) :
    ∀ n i d, d ∈ initDecorAux w f i n → ∃ j, d = mkDecorItem w f j := by
  intro n
  induction n with
  | zero => intro i d h; simp [initDecorAux] at h
  | succ k ih =>
    intro i d h
    rw [initDecorAux] at h
    rcases List.mem_cons.mp h with h | h
    · exact ⟨i, h⟩
    · exact ih (i + 1) d h

/-- The k-th item of the decorative-item loop started at index i is the loop
body at index i + k. -/
theorem initDecorAux_getD (w : ℤ) (f : position) :
    ∀ n i k, k < n → (initDecorAux w f i n).getD k default = mkDecorItem w f (i + k) := by
  intro n
  induction n with
  | zero => intro i k h; omega
  | succ nn ih =>
    intro i k h
    cases k with
    | zero => simp [initDecorAux]
    | succ k =>
      rw [initDecorAux, List.getD_cons_succ, ih (i + 1) k (by omega)]
      congr 1
      omega

/-- A decorative item always lands on a row between 1 and 18, never on the
frog spawn row 19. -/
theorem mkDecorItem_y_bounds (w : ℤ) (f : position) (j : ℕ) :
    1 ≤ (mkDecorItem w f j).y ∧ (mkDecorItem w f j).y ≤ 18 := by
  unfold mkDecorItem gameAreaHeight
  dsimp only
  split_ifs <;> omega

/-- A decorative item always draws its symbol from the fixed palette. -/
theorem mkDecorItem_symbol_mem (w : ℤ) (f : position) (j : ℕ) :
    (mkDecorItem w f j).symbol ∈ decorSymbols := by
  unfold mkDecorItem
  dsimp only
  have h6 : j % decorSymbols.length < decorSymbols.length :=
    Nat.mod_lt _ (by simp [decorSymbols])
  rw [List.getD_eq_getElem decorSymbols default h6]
  exact List.getElem_mem h6

/-- The horizontal position of the j-th decorative item. -/
theorem mkDecorItem_x (w : ℤ) (f : position) (j : ℕ) :
    (mkDecorItem w f j).x = Int.tdiv ((j : ℤ) * w) 12 + ((j % 3 : ℕ) : ℤ) - 1 := rfl

/-- generateObstacles of the empty list is empty. -/
theorem generateObstacles_nil (lanes : List lane) (w : ℤ) :
    generateObstacles lanes w [] = [] := by
  unfold generateObstacles
  split <;> rfl

/-- startGame on an empty list switches decorative mode on. -/
theorem startGame_nil_isZero (m : Model) (now : ℚ) :
    (startGame m [] now).isZeroVulnGame = true := by
  simp [startGame]

/-- startGame on an empty list builds the decorative items from the width and
the frog spawn position. -/
theorem startGame_nil_decorativeItems (m : Model) (now : ℚ) :
    (startGame m [] now).decorativeItems
      = initializeDecorativeItems m.width
          { x := Int.tdiv m.width 2, y := gameAreaHeight - 1 } := by
  simp [startGame]

/-- A tick with no obstacles never changes the phase. -/
theorem updateGame_no_obstacles_state (M : Model) (t : ℚ) (sf : ℚ → ℚ)
    (h : M.obstacles = []) : (updateGame M t sf).state = M.state := by
  unfold updateGame
  rw [h]
  simp only [List.map_nil]
  split_ifs <;> simp [findCollision]

/-- The frog is untouched by the first-move bookkeeping. -/
theorem markFirstMove_frog (m : Model) (t : ℚ) :
    (markFirstMove m t).frog = m.frog := by
  unfold markFirstMove
  split_ifs <;> rfl

/-- An up key in Playing one row below the finish line enters Victory. -/
theorem handleKeyPress_up_wins (mp : Model) (t : ℚ)
    (hs : mp.state = gameState.statePlaying) (hy : mp.frog.y = 1) :
    ((handleKeyPress mp "up" t).1).state = gameState.stateVictory := by
  have hm : (moveFrog mp "up" t).frog.y = 0 := by
    unfold moveFrog
    rw [if_pos (Or.inl rfl), if_pos (by omega), markFirstMove_frog]
    dsimp only
    omega
  unfold handleKeyPress
  rw [if_neg (by simp [hs]), if_neg (by simp)]
  dsimp only
  rw [if_pos hm]

/-- Claim C8: an empty vulnerability list puts startGame in decorative mode:
no obstacles, exactly twelve decorative items, each drawn from the fixed
palette, placed at the evenly spaced positions i*width/12 plus jitter and
never on the frog spawn row; a tick can never end such a game (there is
nothing to collide with), and from any Playing state one row below the top an
up move enters Victory unimpeded. -/
theorem startGame_zero_vulns_decorative (m : Model) (now : ℚ) :
    (startGame m [] now).isZeroVulnGame = true ∧
    (startGame m [] now).obstacles = [] ∧
    (startGame m [] now).decorativeItems.length = 12 ∧
    (∀ d ∈ (startGame m [] now).decorativeItems, d.symbol ∈ decorSymbols) ∧
    (∀ d ∈ (startGame m [] now).decorativeItems, d.y ≠ (startGame m [] now).frog.y) ∧
    (∀ i, i < 12 →
      ((startGame m [] now).decorativeItems.getD i default).x
        = Int.tdiv ((i : ℤ) * m.width) 12 + ((i % 3 : ℕ) : ℤ) - 1) ∧
    (∀ (t : ℚ) (sinFn : ℚ → ℚ),
      (updateGame (startGame m [] now) t sinFn).state = gameState.statePlaying) ∧
    (∀ (mp : Model) (t : ℚ), mp.state = gameState.statePlaying → mp.frog.y = 1 →
      ((handleKeyPress mp "up" t).1).state = gameState.stateVictory) := by
  have hdec := startGame_nil_decorativeItems m now
  have hobs : (startGame m [] now).obstacles = [] := by
    rw [startGame_obstacles, generateObstacles_nil]
  refine ⟨startGame_nil_isZero m now, hobs, ?_, ?_, ?_, ?_, ?_, ?_⟩
  · rw [hdec]
    exact initDecorAux_length _ _ 12 0
  · intro d hd
    rw [hdec] at hd
    obtain ⟨j, rfl⟩ := initDecorAux_mem _ _ 12 0 d hd
    exact mkDecorItem_symbol_mem _ _ j
  · intro d hd
    rw [hdec] at hd
    obtain ⟨j, rfl⟩ := initDecorAux_mem _ _ 12 0 d hd
    rw [startGame_frog]
    have hb := mkDecorItem_y_bounds m.width
        { x := Int.tdiv m.width 2, y := gameAreaHeight - 1 } j
    have : gameAreaHeight = 20 := rfl
    dsimp only
    omega
  · intro i hi
    rw [hdec]
    unfold initializeDecorativeItems
    rw [initDecorAux_getD _ _ 12 0 i hi]
    simpa using mkDecorItem_x m.width
      { x := Int.tdiv m.width 2, y := gameAreaHeight - 1 } i
  · intro t sinFn
    rw [updateGame_no_obstacles_state _ t sinFn hobs, startGame_state]
  · exact fun mp t hs hy => handleKeyPress_up_wins mp t hs hy

/-- Witness for claim C8 at a concrete input. -/
theorem startGame_zero_vulns_decorative_witness :
    (startGame (NewModel 0) [] 0).isZeroVulnGame = true ∧
    (startGame (NewModel 0) [] 0).decorativeItems.length = 12 :=
  ⟨(startGame_zero_vulns_decorative (NewModel 0) 0).1,
   (startGame_zero_vulns_decorative (NewModel 0) 0).2.2.1⟩

/-- One physics step never touches the velocity, width or row; for a defined
float position and nonnegative widths it lands the integer position inside
the wrap bounds, and the float position is either the moved one or one of the
two exact wrap constants (so a wrap resets the position exactly and repeated
wraps cannot accumulate drift). -/
theorem stepObstacle_bounds (width : ℤ) (delta : ℚ) (o : obstacle)
    (hnan : o.floatX ≠ GoFloat.nan) (how : 0 ≤ o.width) (hW : 0 ≤ width) :
    (stepObstacle width delta o).speed = o.speed ∧
    (stepObstacle width delta o).width = o.width ∧
    (stepObstacle width delta o).posY = o.posY ∧
    (∃ p, (stepObstacle width delta o).posX = some p ∧
        -(o.width + 5) ≤ p ∧ p ≤ width + 5) ∧
    ((stepObstacle width delta o).floatX = o.floatX.addQ (o.speed * delta * 30) ∨
     (stepObstacle width delta o).floatX = GoFloat.val ((width + 5 : ℤ) : ℚ) ∨
     (stepObstacle width delta o).floatX = GoFloat.val ((-o.width - 5 : ℤ) : ℚ)) := by
  obtain ⟨q, hq⟩ : ∃ q, o.floatX = GoFloat.val q := by
    cases h : o.floatX with
    | nan => exact absurd h hnan
    | val q => exact ⟨q, rfl⟩
  unfold stepObstacle
  rw [hq]
  simp only [GoFloat.addQ, GoFloat.toInt]
  split_ifs with h1 h2
  · exact ⟨rfl, rfl, rfl, ⟨width + 5, rfl, by omega, by omega⟩, Or.inr (Or.inl rfl)⟩
  · exact ⟨rfl, rfl, rfl, ⟨-o.width - 5, rfl, by omega, by omega⟩, Or.inr (Or.inr rfl)⟩
  · exact ⟨rfl, rfl, rfl,
      ⟨goTrunc (q + o.speed * delta * 30), rfl, by omega, by omega⟩, Or.inl rfl⟩

/-- The obstacle list after a tick is the per-obstacle step mapped over the
previous list. -/
theorem updateGame_obstacles (m : Model) (now : ℚ) (sf : ℚ → ℚ) :
    (updateGame m now sf).obstacles
      = m.obstacles.map (stepObstacle m.width (now - m.lastUpdate)) := by
  unfold updateGame
  dsimp only
  split <;> split_ifs <;> rfl

/-- Claim C9: after a physics tick every obstacle (with a defined float
position and nonnegative width, on a nonnegative-width viewport) has a
defined integer position inside [-(width + 5), viewport width + 5]; the tick
preserves velocity, width and row, and the float position is either the
delta-time-moved one or one of the two exact wrap boundary constants, so
repeated wraps cannot accumulate drift. -/
theorem updateGame_wrap_bounds (m : Model) (now : ℚ) (sf : ℚ → ℚ)
    (hW : 0 ≤ m.width)
    (hobs : ∀ o ∈ m.obstacles, o.floatX ≠ GoFloat.nan ∧ 0 ≤ o.width) :
    ((updateGame m now sf).obstacles.length = m.obstacles.length) ∧
    (∀ i, i < m.obstacles.length →
      ((updateGame m now sf).obstacles.getD i default).speed
          = (m.obstacles.getD i default).speed ∧
      ((updateGame m now sf).obstacles.getD i default).width
          = (m.obstacles.getD i default).width ∧
      ((updateGame m now sf).obstacles.getD i default).posY
          = (m.obstacles.getD i default).posY ∧
      (∃ p, ((updateGame m now sf).obstacles.getD i default).posX = some p ∧
          -((m.obstacles.getD i default).width + 5) ≤ p ∧ p ≤ m.width + 5) ∧
      (((updateGame m now sf).obstacles.getD i default).floatX
          = ((m.obstacles.getD i default).floatX).addQ
              ((m.obstacles.getD i default).speed * (now - m.lastUpdate) * 30) ∨
       ((updateGame m now sf).obstacles.getD i default).floatX
          = GoFloat.val ((m.width + 5 : ℤ) : ℚ) ∨
       ((updateGame m now sf).obstacles.getD i default).floatX
          = GoFloat.val ((-(m.obstacles.getD i default).width - 5 : ℤ) : ℚ))) := by
  have hup := updateGame_obstacles m now sf
  constructor
  · rw [hup, List.length_map]
  · intro i hi
    have him : i < (m.obstacles.map (stepObstacle m.width (now - m.lastUpdate))).length := by
      simpa using hi
    have hgd : (updateGame m now sf).obstacles.getD i default
        = stepObstacle m.width (now - m.lastUpdate) (m.obstacles.getD i default) := by
      rw [hup, List.getD_eq_getElem _ _ him, List.getElem_map,
          List.getD_eq_getElem _ _ hi]
    have hmem : (m.obstacles.getD i default) ∈ m.obstacles := by
      rw [List.getD_eq_getElem _ _ hi]
      exact List.getElem_mem hi
    obtain ⟨hnan, how⟩ := hobs _ hmem
    rw [hgd]
    exact stepObstacle_bounds m.width (now - m.lastUpdate) _ hnan how hW

/-- Witness for claim C9 at a concrete input. -/
theorem updateGame_wrap_bounds_witness :
    (updateGame modelTick 1 (fun q => q)).obstacles.length = modelTick.obstacles.length :=
  (updateGame_wrap_bounds modelTick 1 (fun q => q) (by decide)
      (by intro o ho
          have : o = obsSample := by simpa [modelTick] using ho
          rw [this]
          exact ⟨by simp [obsSample], by decide⟩)).1

/-- startGame keeps the viewport height. -/
theorem startGame_height (m : Model) (vulns : List Vulnerability) (t : ℚ) :
    (startGame m vulns t).height = m.height := by
  unfold startGame
  split <;> rfl

/-- Claim C10 counterexample: on a 10-row viewport the Playing frog sits at
row 19 after a left move — outside the claimed viewport-derived band
0..viewport_height - 2 - 1 = 7 — so a movement input does not keep the frog
inside a playable area recomputed as viewport height minus the header rows. -/
theorem movement_viewport_height_counterexample :
    ¬ (((handleKeyPress shortViewportModel "left" 0).1).frog.y
        ≤ shortViewportModel.height - 2 - 1) := by
  have hstate : shortViewportModel.state = gameState.statePlaying :=
    startGame_state _ _ _
  have hfrog : shortViewportModel.frog = { x := 40, y := 19 } := by
    have h := startGame_frog (setWindowSize (NewModel 0) 80 10) [] 0
    rw [show shortViewportModel = startGame (setWindowSize (NewModel 0) 80 10) [] 0 from rfl, h]
    decide
  have hheight : shortViewportModel.height = 10 := by
    have h := startGame_height (setWindowSize (NewModel 0) 80 10) [] 0
    rw [show shortViewportModel = startGame (setWindowSize (NewModel 0) 80 10) [] 0 from rfl, h]
    decide
  have hmv : (moveFrog shortViewportModel "left" 0).frog.y = 19 := by
    unfold moveFrog
    rw [if_neg (by simp), if_neg (by simp), if_pos (Or.inl rfl),
        if_pos (by rw [hfrog]; decide), markFirstMove_frog]
    dsimp only
    rw [hfrog]
  have hy : ((handleKeyPress shortViewportModel "left" 0).1).frog.y = 19 := by
    unfold handleKeyPress
    rw [if_neg (by simp [hstate]), if_neg (by simp)]
    dsimp only
    rw [if_neg (by rw [hmv]; decide)]
    exact hmv
  rw [hy, hheight]
  decide

/-- The frog bounds are preserved by the movement switch. -/
theorem moveFrog_bounds (m : Model) (key : String) (now : ℚ)
    (hx0 : 0 ≤ m.frog.x) (hx1 : m.frog.x ≤ m.width - 1)
    (hy0 : 0 ≤ m.frog.y) (hy1 : m.frog.y ≤ gameAreaHeight - 1) :
    (0 ≤ (moveFrog m key now).frog.x ∧ (moveFrog m key now).frog.x ≤ m.width - 1) ∧
    (0 ≤ (moveFrog m key now).frog.y ∧
      (moveFrog m key now).frog.y ≤ gameAreaHeight - 1) := by
  unfold moveFrog
  split_ifs <;>
    ((try rw [markFirstMove_frog]); (try dsimp only);
      refine ⟨⟨?_, ?_⟩, ?_, ?_⟩ <;> omega)

/-- Claim C10 (amended): a key press processed during Playing keeps the frog
inside 0 ≤ x ≤ width - 1 and 0 ≤ y ≤ gameAreaHeight - 1 — the playable band
of the fixed game area; the height bound is the constant gameAreaHeight = 20,
not a viewport-derived value. -/
theorem handleKeyPress_preserves_fixed_bounds (m : Model) (key : String) (now : ℚ)
    (hs : m.state = gameState.statePlaying)
    (hx0 : 0 ≤ m.frog.x) (hx1 : m.frog.x ≤ m.width - 1)
    (hy0 : 0 ≤ m.frog.y) (hy1 : m.frog.y ≤ gameAreaHeight - 1) :
    (0 ≤ (handleKeyPress m key now).1.frog.x ∧
      (handleKeyPress m key now).1.frog.x ≤ m.width - 1) ∧
    (0 ≤ (handleKeyPress m key now).1.frog.y ∧
      (handleKeyPress m key now).1.frog.y ≤ gameAreaHeight - 1) := by
  unfold handleKeyPress
  rw [if_neg (by simp [hs])]
  dsimp only
  split_ifs with h1 h2
  · exact ⟨⟨hx0, hx1⟩, hy0, hy1⟩
  · exact moveFrog_bounds m key now hx0 hx1 hy0 hy1
  · exact moveFrog_bounds m key now hx0 hx1 hy0 hy1

/-- Witness for the amended claim C10 at a concrete input. -/
theorem handleKeyPress_preserves_fixed_bounds_witness :
    (0 ≤ (handleKeyPress playingSample "up" 0).1.frog.x ∧
      (handleKeyPress playingSample "up" 0).1.frog.x ≤ playingSample.width - 1) ∧
    (0 ≤ (handleKeyPress playingSample "up" 0).1.frog.y ∧
      (handleKeyPress playingSample "up" 0).1.frog.y ≤ gameAreaHeight - 1) :=
  handleKeyPress_preserves_fixed_bounds playingSample "up" 0
    (startGame_state _ _ _) (by decide) (by decide) (by decide) (by decide)

end Scanfrog
